import Mathlib

/-!
# DutySnap — verification of the Comparison & Duty Aggregation Orchestrator

A shallow embedding of the DutySnap API core: the classification provider
adapters (Anthropic, OpenAI, Zonos — their pure response-processing logic,
with the network/environment outcome made an explicit parameter), the two
revisions of the Zonos duty-calculation adapter found in the source, and the
orchestrator (`runComparison`) together with its analysis helpers
(`analyzeResults`, `calculateProviderScore`, `generateAnalysisNotes`).

Monetary amounts and confidences are modelled as rationals (`ℚ`); JS float
arithmetic on the values exercised here is exact decimal arithmetic, so `ℚ`
is a faithful carrier.  JS `undefined`/optional fields become `Option`;
JS truthiness tests are modelled by the `jsTruthy*`/`jsOr*` helpers below.
-/

/-! ## JS semantics helpers -/

/-- Truthiness of an optional JS string: truthy iff present and non-empty. -/
def jsTruthyStr : Option String → Bool
  | some s => decide (s ≠ "")
  | none => false

/-- Truthiness of an optional JS number: truthy iff present and non-zero
(NaN does not arise over `ℚ`). -/
def jsTruthyNum : Option ℚ → Bool
  | some q => decide (q ≠ 0)
  | none => false

/-- JS `x || d` for an optional string `x`: the string if truthy, else `d`. -/
def jsOrStr (o : Option String) (d : String) : String :=
  match o with
  | some s => if s = "" then d else s
  | none => d

/-- JS `x || d` for an optional number `x`: the number if truthy, else `d`. -/
def jsOrNum (o : Option ℚ) (d : ℚ) : ℚ :=
  match o with
  | some q => if q = 0 then d else q
  | none => d

/-- JS strict equality `a === b` on two possibly-undefined strings:
`undefined === undefined` is `true`, `undefined === s` is `false`. -/
def jsStrictEqOpt (a b : Option String) : Bool :=
  match a, b with
  | none, none => true
  | some x, some y => decide (x = y)
  | _, _ => false

/-- JS `s.slice(0, n)` on a string (by code unit, modelled per character). -/
def jsSlice (s : String) (n : Nat) : String := String.mk (s.data.take n)

/-- JS `s.replace(/\./g, '')`: remove every dot. -/
def stripDots (s : String) : String := String.mk (s.data.filter (fun c => c ≠ '.'))

/-- JS `s.length`. -/
def strLen (s : String) : Nat := s.data.length

/-- JS `s.toLowerCase()` (ASCII-adequate model). -/
def jsToLower (s : String) : String := String.mk (s.data.map Char.toLower)

/-- Does `needle` occur as a contiguous sublist of the second list? -/
def charListHas : List Char → List Char → Bool
  | needle, [] => needle.isEmpty
  | needle, c :: rest => needle.isPrefixOf (c :: rest) || charListHas needle rest

/-- JS `s.includes(pat)`. -/
def jsIncludes (s pat : String) : Bool := charListHas pat.data s.data

/-- Digit-list to natural number accumulator (for `parseFloat`). -/
def digitsToNat : List Char → Nat → Nat
  | [], acc => acc
  | c :: cs, acc => digitsToNat cs (acc * 10 + (c.toNat - 48))

/-- `10 ^ e` over `ℚ` for an integer exponent. -/
def qPowTen (e : ℤ) : ℚ :=
  if 0 ≤ e then (10 : ℚ) ^ e.toNat else 1 / (10 : ℚ) ^ (-e).toNat

/-- JS `parseFloat`: skip leading whitespace, optional sign, digits with an
optional fraction and exponent, parsing the longest valid numeric head and
returning `none` for NaN (no digits).  The exotic `"Infinity"` literal is not
representable over `ℚ` and is modelled as unparsed. -/
def jsParseFloat (s : String) : Option ℚ :=
  let cs := s.data.dropWhile (fun c => c = ' ' ∨ c = '\t' ∨ c = '\n' ∨ c = '\r')
  let signAndRest : ℚ × List Char :=
    match cs with
    | '-' :: r => (-1, r)
    | '+' :: r => (1, r)
    | _ => (1, cs)
  let sign := signAndRest.1
  let cs1 := signAndRest.2
  let intDigits := cs1.takeWhile Char.isDigit
  let rest1 := cs1.dropWhile Char.isDigit
  let fracAndRest : List Char × List Char :=
    match rest1 with
    | '.' :: r => (r.takeWhile Char.isDigit, r.dropWhile Char.isDigit)
    | _ => ([], rest1)
  let fracDigits := fracAndRest.1
  let rest2 := fracAndRest.2
  if intDigits.isEmpty ∧ fracDigits.isEmpty then none
  else
    let mantissa : ℚ :=
      sign * ((digitsToNat intDigits 0 : ℚ) +
        (digitsToNat fracDigits 0 : ℚ) / (10 : ℚ) ^ fracDigits.length)
    let expVal : ℤ :=
      match rest2 with
      | e :: r =>
        if e = 'e' ∨ e = 'E' then
          let esAndRest : ℤ × List Char :=
            match r with
            | '-' :: rr => (-1, rr)
            | '+' :: rr => (1, rr)
            | _ => (1, r)
          let eds := esAndRest.2.takeWhile Char.isDigit
          if eds.isEmpty then 0 else esAndRest.1 * (digitsToNat eds 0 : ℤ)
        else 0
      | [] => 0
    some (mantissa * qPowTen expVal)

/-- Left-pad a digit string with zeros to width `n`. -/
def padZeros (s : String) (n : Nat) : String :=
  String.mk (List.replicate (n - s.data.length) '0' ++ s.data)

/-- JS `x.toFixed(n)`: decimal rendering with `n` fraction digits, rounding
half away from zero. -/
def qToFixed (n : Nat) (q : ℚ) : String :=
  let scaledAbs : ℚ := |q| * (10 : ℚ) ^ n + 1 / 2
  let rounded : ℤ := scaledAbs.num / (scaledAbs.den : ℤ)
  let base : ℤ := (10 : ℤ) ^ n
  let ip := rounded / base
  let fp := rounded % base
  let sign := if q < 0 ∧ rounded ≠ 0 then "-" else ""
  sign ++ toString ip ++ (if n = 0 then "" else "." ++ padZeros (toString fp.toNat) n)

/-! ## Data model (from `types/classification.ts`) -/

/-- The closed provider set. -/
inductive Provider
  | anthropic
  | openai
  | zonos
deriving DecidableEq, Repr

/-- A JSON scalar as it appears in `rawResponse.estimatedValueEUR`: the
orchestrator accepts both a number and a numeric string. -/
inductive RawVal
  | num (v : ℚ)
  | str (s : String)
deriving DecidableEq, Repr

/-- The slice of a reasoning provider's raw parsed reply that the
orchestrator consumes (`rawResponse.productIdentified` and
`rawResponse.estimatedValueEUR`). -/
structure RawResponse where
  productIdentified : Option String
  estimatedValueEUR : Option RawVal
deriving DecidableEq, Repr

/-- `ClassificationInput`. -/
structure ClassificationInput where
  imageBase64 : Option String
  imageUrl : Option String
  productName : Option String
  productDescription : Option String
  originCountry : Option String
  shipToCountry : String
deriving DecidableEq, Repr

/-- `ClassificationResult`. -/
structure ClassificationResult where
  provider : Provider
  hsCode : String
  hsCode6 : String
  hsCode8 : Option String
  description : String
  confidence : ℚ
  reasoning : Option String
  estimatedValueEUR : Option ℚ
  rawResponse : Option RawResponse
  latencyMs : Nat
  error : Option String
deriving DecidableEq, Repr

/-- A duty line (`duties` field; the source field `type` is `lineType` here). -/
structure DutyLine where
  amount : ℚ
  rate : String
  lineType : String
deriving DecidableEq, Repr

/-- The VAT line of a `DutyCalculation`. -/
structure VatLine where
  amount : ℚ
  rate : String
deriving DecidableEq, Repr

/-- One breakdown entry (the source field `type` is `itemType` here). -/
structure BreakdownItem where
  itemType : String
  amount : ℚ
  rate : Option String
deriving DecidableEq, Repr

/-- `DutyCalculation`. -/
structure DutyCalculation where
  provider : Provider
  hsCode : String
  duties : DutyLine
  vat : VatLine
  totalLandedCost : ℚ
  breakdown : List BreakdownItem
  currency : String
  latencyMs : Nat
  error : Option String
deriving DecidableEq, Repr

/-- The per-provider classification map of a `ComparisonResult` (sparse). -/
structure Classifications where
  anthropic : Option ClassificationResult
  openai : Option ClassificationResult
  zonos : Option ClassificationResult
deriving DecidableEq, Repr

/-- The per-provider duty map of a `ComparisonResult` (sparse). -/
structure DutyCalculations where
  anthropic : Option DutyCalculation
  openai : Option DutyCalculation
  zonos : Option DutyCalculation
deriving DecidableEq, Repr

/-- The 6-digit-family cells of the match matrix. -/
structure Hs6Cells where
  anthropicVsZonos : Bool
  openaiVsZonos : Bool
  anthropicVsOpenai : Bool
deriving DecidableEq, Repr

/-- The match matrix (`analysis.hsCodeMatch`): exact-code cells plus the
nested family-level cells.  Cells are booleans in the source type. -/
structure HsCodeMatch where
  anthropicVsZonos : Bool
  openaiVsZonos : Bool
  anthropicVsOpenai : Bool
  hs6Match : Hs6Cells
deriving DecidableEq, Repr

/-- `analysis.confidenceScores` (fields populated only when truthy). -/
structure ConfidenceScores where
  anthropic : Option ℚ
  openai : Option ℚ
  zonos : Option ℚ
deriving DecidableEq, Repr

/-- `analysis.dutyDifference`. -/
structure DutyDifference where
  anthropicVsZonos : Option ℚ
  openaiVsZonos : Option ℚ
  anthropicVsOpenai : Option ℚ
deriving DecidableEq, Repr

/-- The recorded winner. -/
inductive Winner
  | anthropic
  | openai
  | tie
deriving DecidableEq, Repr

/-- `ComparisonResult['analysis']`. -/
structure Analysis where
  hsCodeMatch : HsCodeMatch
  confidenceScores : ConfidenceScores
  dutyDifference : Option DutyDifference
  winner : Option Winner
  notes : String
deriving DecidableEq, Repr

/-- `ComparisonResult`. -/
structure ComparisonResult where
  id : String
  timestamp : String
  input : ClassificationInput
  productValue : Option ℚ
  isEstimatedValue : Bool
  shipToCountry : String
  currency : String
  classifications : Classifications
  dutyCalculations : Option DutyCalculations
  analysis : Analysis
deriving DecidableEq, Repr

/-- `ComparisonRequest`. -/
structure ComparisonRequest where
  imageBase64 : Option String
  imageUrl : Option String
  productName : Option String
  productDescription : Option String
  originCountry : Option String
  shipToCountry : Option String
  productValue : Option ℚ
  currency : Option String
  providers : Option (List Provider)
  calculateDuty : Option Bool
deriving DecidableEq, Repr

/-! ## Classification adapters

Each adapter's network/environment interaction is made explicit as an
outcome value; the Lean function is the adapter's pure response-processing
logic (including its catch-all error handling). -/

/-- The error-carrying `ClassificationResult` every adapter returns from its
missing-key early return and its catch block. -/
def errorClassification (p : Provider) (latency : Nat) (msg : String) :
    ClassificationResult :=
  { provider := p, hsCode := "", hsCode6 := "", hsCode8 := none,
    description := "", confidence := 0, reasoning := none,
    estimatedValueEUR := none, rawResponse := none,
    latencyMs := latency, error := some msg }

/-- The JSON object parsed out of a reasoning provider's (Anthropic/OpenAI)
model reply: every field is whatever the model chose to emit. -/
structure ReasoningParsed where
  hsCode : Option String
  hsCode6 : Option String
  hsCode8 : Option String
  description : Option String
  confidence : Option ℚ
  reasoning : Option String
  productIdentified : Option String
  estimatedValueEUR : Option RawVal
deriving DecidableEq, Repr

/-- Outcome of a reasoning-provider call: no API key, any thrown failure
(transport, non-2xx, unparseable reply), or a parsed JSON reply. -/
inductive ReasoningOutcome
  | missingKey
  | failure (msg : String)
  | parsedOk (p : ReasoningParsed)
deriving DecidableEq, Repr

/-- `classifyWithAnthropic` (src/api/src/services/classifiers/anthropic.ts). -/
def classifyWithAnthropic (o : ReasoningOutcome) (latency : Nat) :
    ClassificationResult :=
  match o with
  | .missingKey => errorClassification .anthropic latency "ANTHROPIC_API_KEY not configured"
  | .failure msg => errorClassification .anthropic latency msg
  | .parsedOk p =>
    { provider := .anthropic,
      hsCode := jsOrStr (p.hsCode.map stripDots) "",
      hsCode6 := jsOrStr (p.hsCode6.map stripDots)
        (jsOrStr ((p.hsCode.map stripDots).map (fun c => jsSlice c 6)) ""),
      hsCode8 := p.hsCode8.map stripDots,
      description := jsOrStr p.description "",
      confidence := jsOrNum p.confidence 0.5,
      reasoning := p.reasoning,
      estimatedValueEUR :=
        match p.estimatedValueEUR with
        | some (.num v) => some v
        | _ => none,
      rawResponse := some ⟨p.productIdentified, p.estimatedValueEUR⟩,
      latencyMs := latency, error := none }

/-- `classifyWithOpenAI` (openai.ts): identical response processing except
that no `estimatedValueEUR` field is produced. -/
def classifyWithOpenAI (o : ReasoningOutcome) (latency : Nat) :
    ClassificationResult :=
  match o with
  | .missingKey => errorClassification .openai latency "OPENAI_API_KEY not configured"
  | .failure msg => errorClassification .openai latency msg
  | .parsedOk p =>
    { provider := .openai,
      hsCode := jsOrStr (p.hsCode.map stripDots) "",
      hsCode6 := jsOrStr (p.hsCode6.map stripDots)
        (jsOrStr ((p.hsCode.map stripDots).map (fun c => jsSlice c 6)) ""),
      hsCode8 := p.hsCode8.map stripDots,
      description := jsOrStr p.description "",
      confidence := jsOrNum p.confidence 0.5,
      reasoning := p.reasoning,
      estimatedValueEUR := none,
      rawResponse := some ⟨p.productIdentified, p.estimatedValueEUR⟩,
      latencyMs := latency, error := none }

/-- Outcome of the Zonos classify call: no API key, any thrown failure
(transport, non-2xx, GraphQL errors, empty result list, missing hsCode), or
a top result carrying `hsCode.code`, `hsCode.description?.full` and an
optional `confidence`. -/
inductive ZonosClassifyOutcome
  | missingKey
  | failure (msg : String)
  | success (codeRaw : String) (desc : Option String) (conf : Option ℚ)
deriving DecidableEq, Repr

/-- `classifyWithZonos` (zonos.ts, current revision). -/
def classifyWithZonos (o : ZonosClassifyOutcome) (latency : Nat) :
    ClassificationResult :=
  match o with
  | .missingKey => errorClassification .zonos latency "ZONOS_API_KEY not configured"
  | .failure msg => errorClassification .zonos latency msg
  | .success codeRaw desc conf =>
    let hsCode := stripDots codeRaw
    { provider := .zonos,
      hsCode := hsCode,
      hsCode6 := jsSlice hsCode 6,
      hsCode8 := if 8 ≤ strLen hsCode then some (jsSlice hsCode 8) else none,
      description := jsOrStr desc "",
      confidence := jsOrNum conf 0.85,
      reasoning := none,
      estimatedValueEUR := none,
      rawResponse := some ⟨none, none⟩,
      latencyMs := latency, error := none }

/-! ## Duty adapters (both revisions present in the source) -/

/-- The totals block of the first-revision Zonos landed-cost response. -/
structure ZonosTotals where
  landedCostTotal : ℚ
  dutyTotal : ℚ
  taxTotal : ℚ
deriving DecidableEq, Repr

/-- The `landedCostCalculateWorkflow` payload of the first revision. -/
structure ZonosLandedCostV1 where
  duties : Option (List DutyLine)
  taxes : Option (List DutyLine)
  totals : Option ZonosTotals
deriving DecidableEq, Repr

/-- Outcome of the first-revision duty call. -/
inductive DutyOutcomeV1
  | missingKey
  | failure (msg : String)
  | success (lc : ZonosLandedCostV1)
deriving DecidableEq, Repr

/-- The error-carrying `DutyCalculation` of the first revision (missing key
and catch block): zero duty/VAT, `totalLandedCost` = bare product value. -/
def errorDutyV1 (hsCode : String) (productValue : ℚ) (currency : String)
    (latency : Nat) (msg : String) : DutyCalculation :=
  { provider := .zonos, hsCode := hsCode,
    duties := ⟨0, "0%", "unknown"⟩, vat := ⟨0, "0%"⟩,
    totalLandedCost := productValue, breakdown := [],
    currency := currency, latencyMs := latency, error := some msg }

/-- `calculateDutyWithZonos`, first revision (part_011 lines 131–271). -/
def calculateDutyWithZonosV1 (o : DutyOutcomeV1) (hsCode : String)
    (productValue : ℚ) (currency : String) (latency : Nat) : DutyCalculation :=
  match o with
  | .missingKey => errorDutyV1 hsCode productValue currency latency
      "ZONOS_API_KEY not configured"
  | .failure msg => errorDutyV1 hsCode productValue currency latency msg
  | .success lc =>
    let duties0 : DutyLine := (lc.duties.bind List.head?).getD ⟨0, "0%", "duty"⟩
    let vat0 : DutyLine :=
      (lc.taxes.bind (fun ts =>
        ts.find? (fun t => jsIncludes (jsToLower t.lineType) "vat"))).getD
        ⟨0, "0%", "VAT"⟩
    let breakdown : List BreakdownItem :=
      ⟨"Product", productValue, none⟩ ::
        ((lc.duties.getD []).map (fun d => ⟨d.lineType, d.amount, some d.rate⟩) ++
         (lc.taxes.getD []).map (fun t => ⟨t.lineType, t.amount, some t.rate⟩))
    { provider := .zonos, hsCode := hsCode,
      duties := ⟨jsOrNum (lc.totals.map (fun t => t.dutyTotal)) duties0.amount,
        duties0.rate, duties0.lineType⟩,
      vat := ⟨jsOrNum (lc.totals.map (fun t => t.taxTotal)) vat0.amount, vat0.rate⟩,
      totalLandedCost := jsOrNum (lc.totals.map (fun t => t.landedCostTotal)) productValue,
      breakdown := breakdown,
      currency := currency, latencyMs := latency, error := none }

/-- One landed-cost result of the second revision (only the `amount` fields
are consumed; a missing list or a null amount contributes zero). -/
structure LandedCostItemV2 where
  duties : Option (List (Option ℚ))
  taxes : Option (List (Option ℚ))
  fees : Option (List (Option ℚ))
deriving DecidableEq, Repr

/-- Outcome of the second-revision duty call: no API key, any thrown failure
before the JSON was parsed, or a parsed body carrying its (possibly partial)
error messages and its optional list of landed-cost results. -/
inductive DutyOutcomeV2
  | missingKey
  | failure (msg : String)
  | parsedOk (errs : List String) (results : Option (List LandedCostItemV2))
deriving DecidableEq, Repr

/-- Does some response error message report the domestic-shipment case? -/
def isDomesticErrs (errs : List String) : Bool :=
  errs.any (fun m => jsIncludes m "Domestic shipments are not allowed")

/-- `sum + (d.amount || 0)` folded over an optional amount list (`?? 0`). -/
def sumAmounts (l : Option (List (Option ℚ))) : ℚ :=
  match l with
  | some xs => (xs.map (fun o => o.getD 0)).sum
  | none => 0

/-- The error-carrying `DutyCalculation` of the second revision. -/
def errorDutyV2 (hsCode : String) (productValue : ℚ) (currency : String)
    (latency : Nat) (msg : String) : DutyCalculation :=
  { provider := .zonos, hsCode := hsCode,
    duties := ⟨0, "0%", "duty"⟩, vat := ⟨0, "0%"⟩,
    totalLandedCost := productValue, breakdown := [],
    currency := currency, latencyMs := latency, error := some msg }

/-- `calculateDutyWithZonos`, second revision (part_011 lines 389–615),
including the intra-EU/domestic zero-duty branch. -/
def calculateDutyWithZonos (o : DutyOutcomeV2) (hsCode : String)
    (productValue : ℚ) (currency : String) (latency : Nat) : DutyCalculation :=
  match o with
  | .missingKey => errorDutyV2 hsCode productValue currency latency
      "ZONOS_API_KEY not configured"
  | .failure msg => errorDutyV2 hsCode productValue currency latency msg
  | .parsedOk errs results =>
    if isDomesticErrs errs then
      { provider := .zonos, hsCode := hsCode,
        duties := ⟨0, "0%", "intra_eu"⟩,
        vat := ⟨productValue * 0.2, "20%"⟩,
        totalLandedCost := productValue + productValue * 0.2,
        breakdown := [⟨"Product", productValue, none⟩,
          ⟨"VAT (Intra-EU)", productValue * 0.2, some "20%"⟩],
        currency := currency, latencyMs := latency, error := none }
    else
      match results with
      | none => errorDutyV2 hsCode productValue currency latency
          (if errs ≠ [] then String.intercalate "; " errs
           else "No landed cost result from Zonos")
      | some [] => errorDutyV2 hsCode productValue currency latency
          (if errs ≠ [] then String.intercalate "; " errs
           else "No landed cost result from Zonos")
      | some (lc :: _) =>
        let dT := sumAmounts lc.duties
        let tT := sumAmounts lc.taxes
        let fT := sumAmounts lc.fees
        let dutyRate := if 0 < productValue then qToFixed 1 (dT / productValue * 100) else "0"
        let vatRate := if 0 < productValue then qToFixed 1 (tT / productValue * 100) else "0"
        { provider := .zonos, hsCode := hsCode,
          duties := ⟨dT, dutyRate ++ "%", "customs_duty"⟩,
          vat := ⟨tT, vatRate ++ "%"⟩,
          totalLandedCost := productValue + dT + tT + fT,
          breakdown := ⟨"Product", productValue, none⟩ ::
            ((if 0 < dT then [⟨"Customs Duty", dT, some (dutyRate ++ "%")⟩] else []) ++
             (if 0 < tT then [⟨"VAT/Tax", tT, some (vatRate ++ "%")⟩] else []) ++
             (if 0 < fT then [⟨"Fees", fT, none⟩] else [])),
          currency := currency, latencyMs := latency, error := none }

/-! ## Analysis (part_011 `analyzeResults` and helpers) -/

/-- `calculateProviderScore`: 0 for a missing or errored result, otherwise a
match bonus (3 exact, else 2 family) plus the result's own confidence.  The
`zonosRef` parameter mirrors the unused `zonos` parameter of the source. -/
def calculateProviderScore (result : Option ClassificationResult)
    (zonosRef : Option ClassificationResult) (exactMatch hs6Match : Bool) : ℚ :=
  match result with
  | none => 0
  | some r =>
    if jsTruthyStr r.error then 0
    else (if exactMatch then 3 else if hs6Match then 2 else 0) + r.confidence

/-- `generateAnalysisNotes`: deterministic prose from the match matrix, the
duty deltas and the confidence gap. -/
def generateAnalysisNotes (cs : Classifications) (m : HsCodeMatch)
    (dutyDifference : Option DutyDifference) : String :=
  let notes1 : List String :=
    if m.anthropicVsZonos && m.openaiVsZonos then
      ["All providers returned the same HS code."]
    else if m.hs6Match.anthropicVsZonos && m.hs6Match.openaiVsZonos then
      ["All providers agree on HS6 (first 6 digits), differ on full code."]
    else
      let pairNotes : List String :=
        (if m.anthropicVsZonos then ["Anthropic matches Zonos"] else []) ++
        (if m.openaiVsZonos then ["OpenAI matches Zonos"] else []) ++
        (if m.anthropicVsOpenai then ["Anthropic matches OpenAI"] else [])
      if pairNotes ≠ [] then [String.intercalate ". " pairNotes ++ "."]
      else ["All providers returned different HS codes."]
  let notes2 : List String :=
    match dutyDifference with
    | none => []
    | some dd =>
      let maxDiff := max (dd.anthropicVsZonos.getD 0) (dd.openaiVsZonos.getD 0)
      if 50 < maxDiff then
        ["Significant duty difference detected: up to €" ++ qToFixed 2 maxDiff]
      else if 0 < maxDiff then
        ["Minor duty difference: €" ++ qToFixed 2 maxDiff]
      else []
  let aConf := (cs.anthropic.map (fun r => r.confidence)).getD 0
  let oConf := (cs.openai.map (fun r => r.confidence)).getD 0
  let notes3 : List String :=
    if 0.2 < |aConf - oConf| then
      [(if oConf < aConf then "Anthropic" else "OpenAI") ++
        " has notably higher confidence."]
    else []
  String.intercalate " " (notes1 ++ notes2 ++ notes3)

/-- One optional cell of the duty-delta map: present only when both totals
are truthy. -/
def dutyDeltaCell (x y : Option ℚ) : Option ℚ :=
  match x, y with
  | some a, some b => if a ≠ 0 ∧ b ≠ 0 then some |a - b| else none
  | _, _ => none

/-- A truthiness-gated confidence entry of `analysis.confidenceScores`. -/
def confidenceEntry (c : Option ClassificationResult) : Option ℚ :=
  match c with
  | some r => if r.confidence ≠ 0 then some r.confidence else none
  | none => none

/-- `analyzeResults`. -/
def analyzeResults (cs : Classifications) (duty : Option DutyCalculations) :
    Analysis :=
  let a := cs.anthropic
  let o := cs.openai
  let z := cs.zonos
  let m : HsCodeMatch :=
    { anthropicVsZonos := jsStrictEqOpt (a.map (fun r => r.hsCode)) (z.map (fun r => r.hsCode)),
      openaiVsZonos := jsStrictEqOpt (o.map (fun r => r.hsCode)) (z.map (fun r => r.hsCode)),
      anthropicVsOpenai := jsStrictEqOpt (a.map (fun r => r.hsCode)) (o.map (fun r => r.hsCode)),
      hs6Match :=
        { anthropicVsZonos := jsStrictEqOpt (a.map (fun r => r.hsCode6)) (z.map (fun r => r.hsCode6)),
          openaiVsZonos := jsStrictEqOpt (o.map (fun r => r.hsCode6)) (z.map (fun r => r.hsCode6)),
          anthropicVsOpenai := jsStrictEqOpt (a.map (fun r => r.hsCode6)) (o.map (fun r => r.hsCode6)) } }
  let confidenceScores : ConfidenceScores :=
    { anthropic := confidenceEntry a, openai := confidenceEntry o, zonos := confidenceEntry z }
  let dutyDifference : Option DutyDifference :=
    match duty with
    | none => none
    | some d =>
      some { anthropicVsZonos := dutyDeltaCell (d.anthropic.map (fun x => x.totalLandedCost))
               (d.zonos.map (fun x => x.totalLandedCost)),
             openaiVsZonos := dutyDeltaCell (d.openai.map (fun x => x.totalLandedCost))
               (d.zonos.map (fun x => x.totalLandedCost)),
             anthropicVsOpenai := dutyDeltaCell (d.anthropic.map (fun x => x.totalLandedCost))
               (d.openai.map (fun x => x.totalLandedCost)) }
  let anthropicScore := calculateProviderScore a z m.anthropicVsZonos m.hs6Match.anthropicVsZonos
  let openaiScore := calculateProviderScore o z m.openaiVsZonos m.hs6Match.openaiVsZonos
  let winner : Option Winner :=
    if openaiScore < anthropicScore then some .anthropic
    else if anthropicScore < openaiScore then some .openai
    else if anthropicScore = openaiScore ∧ 0 < anthropicScore then some .tie
    else none
  { hsCodeMatch := m, confidenceScores := confidenceScores,
    dutyDifference := dutyDifference, winner := winner,
    notes := generateAnalysisNotes cs m dutyDifference }

/-! ## Orchestrator (part_011 `runComparison`) -/

/-- The provider adapters as the orchestrator sees them: one deterministic
response per input (each is invoked at most once per comparison). -/
structure Oracles where
  classifyAnthropic : ClassificationInput → ClassificationResult
  classifyOpenAI : ClassificationInput → ClassificationResult
  classifyZonos : ClassificationInput → ClassificationResult
  calcDuty : String → ℚ → String → String → String → DutyCalculation

/-- The `ClassificationInput` object the orchestrator builds from the
request (with the destination defaulted). -/
def mkInput (req : ComparisonRequest) : ClassificationInput :=
  { imageBase64 := req.imageBase64, imageUrl := req.imageUrl,
    productName := req.productName, productDescription := req.productDescription,
    originCountry := req.originCountry,
    shipToCountry := jsOrStr req.shipToCountry "US" }

/-- The input the Zonos classification is invoked with: a copy of the
original, with the Anthropic-identified product name/description substituted
in when the original carries no image URL, product name or description. -/
def deriveZonosInput (input : ClassificationInput)
    (cAnthropic : Option ClassificationResult) : ClassificationInput :=
  if jsTruthyStr input.imageUrl || jsTruthyStr input.productName ||
      jsTruthyStr input.productDescription then input
  else
    let ap : Option String :=
      cAnthropic.bind (fun r => r.rawResponse.bind (fun w => w.productIdentified))
    let ad : Option String := cAnthropic.map (fun r => r.description)
    let i1 :=
      match ap with
      | some s => if s ≠ "" then { input with productName := some s } else input
      | none => input
    match ad with
    | some s => if s ≠ "" then { i1 with productDescription := some s } else i1
    | none => i1

/-- Steps 1–2 of the orchestrator: Anthropic first, then Zonos on the
(possibly substituted) input, then OpenAI. -/
def classifyPhase (O : Oracles) (providers : List Provider)
    (input : ClassificationInput) : Classifications :=
  let cA := if providers.contains Provider.anthropic
    then some (O.classifyAnthropic input) else none
  let cZ := if providers.contains Provider.zonos
    then some (O.classifyZonos (deriveZonosInput input cA)) else none
  let cO := if providers.contains Provider.openai
    then some (O.classifyOpenAI input) else none
  { anthropic := cA, openai := cO, zonos := cZ }

/-- Step 3 of the orchestrator: the resolved product value and the estimated
flag — the explicit request value if truthy, else the Anthropic
`estimatedValueEUR` field if truthy, else a positive numeric (or
numeric-string) `estimatedValueEUR` found in the raw response. -/
def resolveValue (reqValue : Option ℚ)
    (cAnthropic : Option ClassificationResult) : Option ℚ × Bool :=
  let fieldEst : Option ℚ := cAnthropic.bind (fun r => r.estimatedValueEUR)
  let step1 : Option ℚ × Bool :=
    if ¬ jsTruthyNum reqValue ∧ jsTruthyNum fieldEst then (fieldEst, true)
    else (reqValue, false)
  if jsTruthyNum step1.1 then step1
  else
    match cAnthropic.bind (fun r => r.rawResponse) with
    | none => step1
    | some raw =>
      match raw.estimatedValueEUR with
      | some (.num v) => if 0 < v then (some v, true) else step1
      | some (.str s) =>
        match jsParseFloat s with
        | some p => if 0 < p then (some p, true) else step1
        | none => step1
      | none => step1

/-- One fan-out duty call: the Zonos duty adapter invoked with a provider's
code, with the result's provider field overridden (`{...duty, provider}`). -/
def dutyFor (O : Oracles) (req : ComparisonRequest) (shipTo : String)
    (pv : ℚ) (p : Provider) (code : String) : DutyCalculation :=
  { O.calcDuty code pv (jsOrStr req.currency "EUR") (jsOrStr req.originCountry "US") shipTo
    with provider := p }

/-- A provider's own fan-out duty entry: present iff its classification has
a truthy code and no truthy error. -/
def eligibleDuty (O : Oracles) (req : ComparisonRequest) (shipTo : String)
    (pv : ℚ) (p : Provider) (c : Option ClassificationResult) : Option DutyCalculation :=
  match c with
  | some r =>
    if r.hsCode ≠ "" ∧ ¬ jsTruthyStr r.error = true
    then some (dutyFor O req shipTo pv p r.hsCode)
    else none
  | none => none

/-- `!classifications.zonos?.hsCode || classifications.zonos?.error`. -/
def zonosNeedsFallback (cZonos : Option ClassificationResult) : Bool :=
  match cZonos with
  | none => true
  | some r => decide (r.hsCode = "") || jsTruthyStr r.error

/-- Step 5 of the orchestrator: the duty fan-out (one entry per provider
with a usable code, plus the synthetic Zonos entry computed from the
Anthropic code when the Zonos classification failed). -/
def dutyPhase (O : Oracles) (req : ComparisonRequest) (shipTo : String)
    (cs : Classifications) (pv : ℚ) : DutyCalculations :=
  let dZ0 := eligibleDuty O req shipTo pv .zonos cs.zonos
  let dZ : Option DutyCalculation :=
    match dZ0 with
    | some d => some d
    | none =>
      match cs.anthropic with
      | some ra =>
        if zonosNeedsFallback cs.zonos ∧ ra.hsCode ≠ "" ∧ ¬ jsTruthyStr ra.error = true
        then some (dutyFor O req shipTo pv .zonos ra.hsCode)
        else none
      | none => none
  { anthropic := eligibleDuty O req shipTo pv .anthropic cs.anthropic,
    openai := eligibleDuty O req shipTo pv .openai cs.openai,
    zonos := dZ }

/-- `runComparison`: the full orchestrator, as a function of the adapter
oracles, the request, and the generated id/timestamp. -/
def runComparison (O : Oracles) (req : ComparisonRequest) (id ts : String) :
    ComparisonResult :=
  let providers := req.providers.getD [Provider.anthropic, Provider.openai, Provider.zonos]
  let shipTo := jsOrStr req.shipToCountry "US"
  let input := mkInput req
  let cs := classifyPhase O providers input
  let resolved := resolveValue req.productValue cs.anthropic
  let duty : Option DutyCalculations :=
    match resolved.1 with
    | some v => if 0 < v then some (dutyPhase O req shipTo cs v) else none
    | none => none
  { id := id, timestamp := ts, input := input,
    productValue := resolved.1, isEstimatedValue := resolved.2,
    shipToCountry := shipTo, currency := jsOrStr req.currency "EUR",
    classifications := cs, dutyCalculations := duty,
    analysis := analyzeResults cs duty }

/-! ## Specification-side definitions, side conditions, and concrete fixtures -/

/-- A model reply whose own `hsCode6` contradicts its `hsCode`: the
Anthropic adapter copies both fields verbatim. -/
def inconsistentParsed : ReasoningParsed :=
  { hsCode := some "640399", hsCode6 := some "999999", hsCode8 := none,
    description := some "Footwear", confidence := some 1, reasoning := none,
    productIdentified := none, estimatedValueEUR := none }

/-- The failing outcomes of the second-revision duty call: missing
credential, any thrown transport/non-2xx/parse failure, or a parsed body
with no landed-cost result and no domestic marker. -/
def dutyFailsV2 (o : DutyOutcomeV2) : Bool :=
  match o with
  | .missingKey => true
  | .failure _ => true
  | .parsedOk errs results => !isDomesticErrs errs && (results.getD []).isEmpty

/-- The failing outcomes of the first-revision duty call. -/
def dutyFailsV1 (o : DutyOutcomeV1) : Bool :=
  match o with
  | .missingKey => true
  | .failure _ => true
  | .success _ => false

/-- A first-revision response whose provider-reported `landedCostTotal`
disagrees with the breakdown it ships alongside. -/
def mismatchedLandedCost : ZonosLandedCostV1 :=
  { duties := some [⟨5, "5%", "duty"⟩], taxes := some [],
    totals := some ⟨100, 5, 0⟩ }

/-- The non-negativity side condition under which the second revision's
breakdown is complete: each of the summed duty/tax/fee totals of the used
landed-cost result is non-negative (a negative total is dropped from the
breakdown but still added into the landed-cost total). -/
def dutyTotalsNonneg (o : DutyOutcomeV2) : Prop :=
  match o with
  | .parsedOk _ (some (lc :: _)) =>
    0 ≤ sumAmounts lc.duties ∧ 0 ≤ sumAmounts lc.taxes ∧ 0 ≤ sumAmounts lc.fees
  | _ => True

/-- A second-revision response with one landed-cost result: duties 5 and 3,
one tax of 20, no fees. -/
def v2SampleOutcome : DutyOutcomeV2 :=
  .parsedOk [] (some [⟨some [some 5, some 3], some [some 20], none⟩])

/-- A representative present classification result (a successful Anthropic
footwear classification). -/
def presentResult : ClassificationResult :=
  { provider := .anthropic, hsCode := "64039912", hsCode6 := "640399",
    hsCode8 := some "64039912", description := "Footwear", confidence := 0.9,
    reasoning := none, estimatedValueEUR := none,
    rawResponse := some ⟨some "running shoes", none⟩, latencyMs := 12,
    error := none }

/-- The scoring rule as the specification words it: 0 for a missing or
errored result, otherwise 3 on an exact match with the structured
reference, else 2 on a family match, plus the result's own confidence. -/
def scoreSpec (r : Option ClassificationResult) (exactMatch hs6Match : Bool) : ℚ :=
  match r with
  | none => 0
  | some x =>
    if x.error.isSome then 0
    else (if exactMatch then 3 else if hs6Match then 2 else 0) + x.confidence

/-- The winner rule as the specification words it: the provider with the
strictly higher score, a tie on equal positive scores, and no winner
otherwise (in particular when both scores are zero). -/
def winnerSpec (sa so : ℚ) : Option Winner :=
  if so < sa then some Winner.anthropic
  else if sa < so then some Winner.openai
  else if sa = so ∧ 0 < sa then some Winner.tie
  else none

/-- A successful OpenAI comparison result with confidence 0.85. -/
def openaiSample : ClassificationResult :=
  { provider := .openai, hsCode := "64039912", hsCode6 := "640399",
    hsCode8 := none, description := "Footwear", confidence := 0.85,
    reasoning := none, estimatedValueEUR := none,
    rawResponse := some ⟨none, none⟩, latencyMs := 9, error := none }

/-- A successful Zonos comparison result agreeing on the full code. -/
def zonosSample : ClassificationResult :=
  { provider := .zonos, hsCode := "64039912", hsCode6 := "640399",
    hsCode8 := some "64039912", description := "Footwear", confidence := 0.85,
    reasoning := none, estimatedValueEUR := none,
    rawResponse := some ⟨none, none⟩, latencyMs := 20, error := none }

/-- All three providers present and agreeing on the full code. -/
def csSample : Classifications :=
  ⟨some presentResult, some openaiSample, some zonosSample⟩

/-- A concrete Anthropic model reply identifying a leather handbag with an
estimated value of 150 EUR. -/
def estParsed : ReasoningParsed :=
  { hsCode := some "420221", hsCode6 := none, hsCode8 := none,
    description := some "Leather handbag", confidence := some 0.9,
    reasoning := none, productIdentified := some "leather handbag",
    estimatedValueEUR := some (.num 150) }

/-- Concrete adapter oracles: Anthropic succeeds with `estParsed`, OpenAI
has no key, the Zonos classification fails with a transport error, and the
duty adapter answers with a fixed 5% duty / 20% VAT quote. -/
def testOracles : Oracles :=
  { classifyAnthropic := fun _ => classifyWithAnthropic (.parsedOk estParsed) 10,
    classifyOpenAI := fun _ => classifyWithOpenAI .missingKey 1,
    classifyZonos := fun _ => classifyWithZonos (.failure "Zonos API error: 500 Internal Server Error") 2,
    calcDuty := fun code pv cur _org _dst =>
      { provider := .zonos, hsCode := code,
        duties := ⟨pv * 0.05, "5%", "customs_duty"⟩, vat := ⟨pv * 0.2, "20%"⟩,
        totalLandedCost := pv + pv * 0.05 + pv * 0.2,
        breakdown := [⟨"Product", pv, none⟩], currency := cur,
        latencyMs := 3, error := none } }

/-- A request carrying only inline image bytes: no URL, name, description
or explicit value. -/
def reqBytesOnly : ComparisonRequest :=
  { imageBase64 := some "data:image/jpeg;base64,AAAA", imageUrl := none,
    productName := none, productDescription := none,
    originCountry := some "IT", shipToCountry := some "FR",
    productValue := none, currency := none,
    providers := some [Provider.anthropic, Provider.zonos],
    calculateDuty := some true }

/-- A request with an explicit positive product value (and no name, URL or
description beyond the inline bytes). -/
def reqWithValue : ComparisonRequest :=
  { imageBase64 := some "data:image/jpeg;base64,AAAA", imageUrl := none,
    productName := none, productDescription := none,
    originCountry := some "IT", shipToCountry := some "FR",
    productValue := some 100, currency := none,
    providers := some [Provider.anthropic, Provider.zonos],
    calculateDuty := some true }

/-- No positive Anthropic estimate exists in any accepted form (field,
raw numeric, or raw numeric-string). -/
def noPositiveEstimate (c : Option ClassificationResult) : Prop :=
  ∀ r, c = some r →
    (∀ e, r.estimatedValueEUR = some e → e ≤ 0) ∧
    (∀ raw, r.rawResponse = some raw →
      (∀ w, raw.estimatedValueEUR = some (.num w) → w ≤ 0) ∧
      (∀ s p, raw.estimatedValueEUR = some (.str s) → jsParseFloat s = some p → p ≤ 0))

/-! ## Projection lemmas for the orchestrator -/

/-- The default provider list of the orchestrator. -/
def defaultProviders : List Provider := [Provider.anthropic, Provider.openai, Provider.zonos]

theorem runComparison_input (O : Oracles) (req : ComparisonRequest) (id ts : String) :
    (runComparison O req id ts).input = mkInput req := rfl

theorem runComparison_classifications (O : Oracles) (req : ComparisonRequest)
    (id ts : String) :
    (runComparison O req id ts).classifications =
      classifyPhase O (req.providers.getD defaultProviders) (mkInput req) := rfl

theorem runComparison_productValue (O : Oracles) (req : ComparisonRequest)
    (id ts : String) :
    (runComparison O req id ts).productValue =
      (resolveValue req.productValue
        (classifyPhase O (req.providers.getD defaultProviders) (mkInput req)).anthropic).1 := rfl

theorem runComparison_isEstimatedValue (O : Oracles) (req : ComparisonRequest)
    (id ts : String) :
    (runComparison O req id ts).isEstimatedValue =
      (resolveValue req.productValue
        (classifyPhase O (req.providers.getD defaultProviders) (mkInput req)).anthropic).2 := rfl

theorem runComparison_dutyCalculations (O : Oracles) (req : ComparisonRequest)
    (id ts : String) :
    (runComparison O req id ts).dutyCalculations =
      (match (resolveValue req.productValue
          (classifyPhase O (req.providers.getD defaultProviders) (mkInput req)).anthropic).1 with
        | some v => if 0 < v then
            some (dutyPhase O req (jsOrStr req.shipToCountry "US")
              (classifyPhase O (req.providers.getD defaultProviders) (mkInput req)) v)
          else none
        | none => none) := rfl

/-! ## C4 — the hs6/hs8 nesting invariant of the classification adapters -/

/-- C4 counterexample: a valid (non-error) result of the Anthropic adapter
whose `hsCode6` is not the first six characters of its `hsCode` — the
adapter trusts the model-reported `hsCode6` field verbatim. -/
theorem c4_counterexample :
    (classifyWithAnthropic (.parsedOk inconsistentParsed) 5).error = none ∧
    (classifyWithAnthropic (.parsedOk inconsistentParsed) 5).hsCode = "640399" ∧
    (classifyWithAnthropic (.parsedOk inconsistentParsed) 5).hsCode6 = "999999" ∧
    ¬ (classifyWithAnthropic (.parsedOk inconsistentParsed) 5).hsCode6 =
        jsSlice (classifyWithAnthropic (.parsedOk inconsistentParsed) 5).hsCode 6 := by
  refine ⟨rfl, by decide, by decide, by decide⟩

theorem jsSlice_jsSlice (s : String) (m n : Nat) (h : n ≤ m) :
    jsSlice (jsSlice s m) n = jsSlice s n := by
  simp [jsSlice, List.take_take, Nat.min_eq_left h]

theorem jsSlice_ne_empty (s : String) (n : Nat) (hs : s ≠ "") (hn : 0 < n) :
    jsSlice s n ≠ "" := by
  simp only [jsSlice]
  intro hcon
  apply hs
  have hdata : s.data.take n = [] := by
    have := congrArg String.data hcon
    simpa using this
  rcases List.take_eq_nil_iff.mp hdata with h1 | h1
  · omega
  · cases s with
    | mk d => simp_all

/-- C4 (amended): the nesting invariant `hsCode6 = hsCode[0:6]` and
`hsCode8[0:6] = hsCode6` holds for every valid result of the Zonos adapter,
and for the Anthropic and OpenAI adapters exactly when the model reply omits
its own `hsCode6`/`hsCode8` fields, which the adapters otherwise copy
verbatim without consistency checking. -/
theorem c4_amended :
    (∀ (o : ZonosClassifyOutcome) (lat : Nat),
      (classifyWithZonos o lat).error = none →
        (classifyWithZonos o lat).hsCode6 = jsSlice (classifyWithZonos o lat).hsCode 6 ∧
        ∀ h8, (classifyWithZonos o lat).hsCode8 = some h8 →
          jsSlice h8 6 = (classifyWithZonos o lat).hsCode6) ∧
    (∀ (p : ReasoningParsed) (lat : Nat), p.hsCode6 = none → p.hsCode8 = none →
        (classifyWithAnthropic (.parsedOk p) lat).hsCode6 =
          jsSlice (classifyWithAnthropic (.parsedOk p) lat).hsCode 6 ∧
        (classifyWithAnthropic (.parsedOk p) lat).hsCode8 = none) ∧
    (∀ (p : ReasoningParsed) (lat : Nat), p.hsCode6 = none → p.hsCode8 = none →
        (classifyWithOpenAI (.parsedOk p) lat).hsCode6 =
          jsSlice (classifyWithOpenAI (.parsedOk p) lat).hsCode 6 ∧
        (classifyWithOpenAI (.parsedOk p) lat).hsCode8 = none) := by
  refine ⟨?_, ?_, ?_⟩
  · intro o lat herr
    cases o with
    | missingKey => simp [classifyWithZonos, errorClassification] at herr
    | failure msg => simp [classifyWithZonos, errorClassification] at herr
    | success codeRaw desc conf =>
      constructor
      · rfl
      · intro h8 hh8
        simp only [classifyWithZonos] at hh8 ⊢
        by_cases hlen : 8 ≤ strLen (stripDots codeRaw)
        · rw [if_pos hlen] at hh8
          have : h8 = jsSlice (stripDots codeRaw) 8 := by
            injection hh8 with h
            exact h.symm
          rw [this]
          exact jsSlice_jsSlice _ 8 6 (by omega)
        · rw [if_neg hlen] at hh8
          exact absurd hh8 (by simp)
  · intro p lat h6 h8
    refine ⟨?_, by simp [classifyWithAnthropic, h8]⟩
    cases hc : p.hsCode with
    | none => simp [classifyWithAnthropic, h6, hc, jsOrStr, jsSlice]
    | some s =>
      by_cases hs : stripDots s = ""
      · simp [classifyWithAnthropic, h6, hc, jsOrStr, hs, jsSlice]
      · simp [classifyWithAnthropic, h6, hc, jsOrStr, hs,
          jsSlice_ne_empty _ 6 hs (by omega)]
  · intro p lat h6 h8
    refine ⟨?_, by simp [classifyWithOpenAI, h8]⟩
    cases hc : p.hsCode with
    | none => simp [classifyWithOpenAI, h6, hc, jsOrStr, jsSlice]
    | some s =>
      by_cases hs : stripDots s = ""
      · simp [classifyWithOpenAI, h6, hc, jsOrStr, hs, jsSlice]
      · simp [classifyWithOpenAI, h6, hc, jsOrStr, hs,
          jsSlice_ne_empty _ 6 hs (by omega)]

/-- C4 witness: the amended invariant evaluated on a concrete Zonos result
(a dotted ten-digit code) via the amended theorem. -/
theorem c4_amended_witness :
    (classifyWithZonos (.success "6403.99.1234" (some "Footwear") (some 0.9)) 3).error = none ∧
    (classifyWithZonos (.success "6403.99.1234" (some "Footwear") (some 0.9)) 3).hsCode6 =
      jsSlice (classifyWithZonos (.success "6403.99.1234" (some "Footwear") (some 0.9)) 3).hsCode 6 :=
  ⟨rfl, (c4_amended.1 (.success "6403.99.1234" (some "Footwear") (some 0.9)) 3 rfl).1⟩

/-! ## C7 — the domestic-shipment branch of the duty adapter -/

/-- C7: when the duty provider reports the domestic-shipment condition,
`calculateDutyWithZonos` returns zero duty, VAT at the standard 20% rate on
the product value, a total of value plus VAT, and no error. -/
theorem c7_domestic_shipment (hs cur : String) (pv : ℚ) (lat : Nat)
    (errs : List String) (results : Option (List LandedCostItemV2))
    (h : isDomesticErrs errs = true) :
    (calculateDutyWithZonos (.parsedOk errs results) hs pv cur lat).duties.amount = 0 ∧
    (calculateDutyWithZonos (.parsedOk errs results) hs pv cur lat).vat.amount = 0.2 * pv ∧
    (calculateDutyWithZonos (.parsedOk errs results) hs pv cur lat).vat.rate = "20%" ∧
    (calculateDutyWithZonos (.parsedOk errs results) hs pv cur lat).totalLandedCost =
      pv + 0.2 * pv ∧
    (calculateDutyWithZonos (.parsedOk errs results) hs pv cur lat).error = none := by
  have hres : calculateDutyWithZonos (.parsedOk errs results) hs pv cur lat =
      { provider := .zonos, hsCode := hs,
        duties := ⟨0, "0%", "intra_eu"⟩,
        vat := ⟨pv * 0.2, "20%"⟩,
        totalLandedCost := pv + pv * 0.2,
        breakdown := [⟨"Product", pv, none⟩, ⟨"VAT (Intra-EU)", pv * 0.2, some "20%"⟩],
        currency := cur, latencyMs := lat, error := none } := by
    simp [calculateDutyWithZonos, h]
  rw [hres]
  refine ⟨rfl, ?_, rfl, ?_, rfl⟩
  · show pv * 0.2 = 0.2 * pv
    ring
  · show pv + pv * 0.2 = pv + 0.2 * pv
    ring

/-- C7 witness: the domestic branch at a concrete response carrying the
`Domestic shipments are not allowed` error message and product value 100. -/
theorem c7_domestic_shipment_witness :
    isDomesticErrs ["Domestic shipments are not allowed for this configuration"] = true ∧
    ((calculateDutyWithZonos
        (.parsedOk ["Domestic shipments are not allowed for this configuration"] none)
        "640399" 100 "EUR" 7).vat.amount = 0.2 * 100 ∧
      (calculateDutyWithZonos
        (.parsedOk ["Domestic shipments are not allowed for this configuration"] none)
        "640399" 100 "EUR" 7).totalLandedCost = 100 + 0.2 * 100 ∧
      (calculateDutyWithZonos
        (.parsedOk ["Domestic shipments are not allowed for this configuration"] none)
        "640399" 100 "EUR" 7).error = none) :=
  ⟨by decide,
    let h := c7_domestic_shipment "640399" "EUR" 100 7
      ["Domestic shipments are not allowed for this configuration"] none (by decide)
    ⟨h.2.1, h.2.2.2.1, h.2.2.2.2⟩⟩

/-! ## C8 — fail-safe-to-zero error handling of the duty adapter -/

/-- C8: both revisions of `calculateDutyWithZonos` are total functions of
their outcome (no exception escapes), and on every failing outcome —
missing credential, transport, non-2xx or parse failure — they return an
error-carrying result whose `totalLandedCost` is the bare product value
with zero duty and VAT amounts. -/
theorem c8_duty_fail_safe (hs cur : String) (pv : ℚ) (lat : Nat) :
    (∀ o : DutyOutcomeV2, dutyFailsV2 o = true →
      (calculateDutyWithZonos o hs pv cur lat).error.isSome = true ∧
      (calculateDutyWithZonos o hs pv cur lat).totalLandedCost = pv ∧
      (calculateDutyWithZonos o hs pv cur lat).duties.amount = 0 ∧
      (calculateDutyWithZonos o hs pv cur lat).vat.amount = 0) ∧
    (∀ o : DutyOutcomeV1, dutyFailsV1 o = true →
      (calculateDutyWithZonosV1 o hs pv cur lat).error.isSome = true ∧
      (calculateDutyWithZonosV1 o hs pv cur lat).totalLandedCost = pv ∧
      (calculateDutyWithZonosV1 o hs pv cur lat).duties.amount = 0 ∧
      (calculateDutyWithZonosV1 o hs pv cur lat).vat.amount = 0) := by
  constructor
  · intro o ho
    cases o with
    | missingKey => exact ⟨rfl, rfl, rfl, rfl⟩
    | failure msg => exact ⟨rfl, rfl, rfl, rfl⟩
    | parsedOk errs results =>
      simp only [dutyFailsV2, Bool.and_eq_true, Bool.not_eq_true'] at ho
      obtain ⟨hdom, hempty⟩ := ho
      simp only [calculateDutyWithZonos, hdom, Bool.false_eq_true, if_false]
      cases results with
      | none => exact ⟨rfl, rfl, rfl, rfl⟩
      | some l =>
        cases l with
        | nil => exact ⟨rfl, rfl, rfl, rfl⟩
        | cons x xs => simp [Option.getD] at hempty
  · intro o ho
    cases o with
    | missingKey => exact ⟨rfl, rfl, rfl, rfl⟩
    | failure msg => exact ⟨rfl, rfl, rfl, rfl⟩
    | success lc => simp [dutyFailsV1] at ho

/-- C8 witness: a concrete transport failure of the second revision,
through the theorem. -/
theorem c8_duty_fail_safe_witness :
    dutyFailsV2 (.failure "Zonos API error: 500 Internal Server Error") = true ∧
    ((calculateDutyWithZonos (.failure "Zonos API error: 500 Internal Server Error")
        "640399" 250 "EUR" 4).error.isSome = true ∧
      (calculateDutyWithZonos (.failure "Zonos API error: 500 Internal Server Error")
        "640399" 250 "EUR" 4).totalLandedCost = 250 ∧
      (calculateDutyWithZonos (.failure "Zonos API error: 500 Internal Server Error")
        "640399" 250 "EUR" 4).duties.amount = 0 ∧
      (calculateDutyWithZonos (.failure "Zonos API error: 500 Internal Server Error")
        "640399" 250 "EUR" 4).vat.amount = 0) :=
  ⟨rfl, (c8_duty_fail_safe "640399" "EUR" 250 4).1
    (.failure "Zonos API error: 500 Internal Server Error") rfl⟩

/-! ## C9 — landed-cost totals versus the breakdown sum -/

/-- C9 counterexample: a non-error result of the first-revision duty
adapter (product value 10) whose first breakdown item is the declared
product value, yet `totalLandedCost` is the provider-reported 100 — off the
claimed `productValue + sum(breakdown[1:])` (= 15) by far more than 1e-6:
the first revision trusts `totals.landedCostTotal` over the breakdown. -/
theorem c9_counterexample :
    (calculateDutyWithZonosV1 (.success mismatchedLandedCost) "640399" 10 "EUR" 2).error
        = none ∧
    (calculateDutyWithZonosV1 (.success mismatchedLandedCost) "640399" 10 "EUR" 2).breakdown.head?
        = some ⟨"Product", 10, none⟩ ∧
    ¬ |(calculateDutyWithZonosV1 (.success mismatchedLandedCost) "640399" 10 "EUR" 2).totalLandedCost -
        (10 + (((calculateDutyWithZonosV1 (.success mismatchedLandedCost) "640399" 10 "EUR" 2).breakdown.drop 1).map
          (fun b => b.amount)).sum)| ≤ 1 / 1000000 := by
  refine ⟨rfl, rfl, ?_⟩
  have h1 : (calculateDutyWithZonosV1 (.success mismatchedLandedCost) "640399" 10 "EUR" 2).totalLandedCost = 100 := by
    simp [calculateDutyWithZonosV1, mismatchedLandedCost, jsOrNum]
  have h2 : (((calculateDutyWithZonosV1 (.success mismatchedLandedCost) "640399" 10 "EUR" 2).breakdown.drop 1).map
      (fun b => b.amount)).sum = 5 := by
    simp [calculateDutyWithZonosV1, mismatchedLandedCost]
  rw [h1, h2]
  norm_num

theorem mapSum_if_singleton (c : Prop) [Decidable c] (x : BreakdownItem) :
    (List.map (fun b => b.amount) (if c then [x] else [])).sum =
      if c then x.amount else 0 := by
  split <;> simp

theorem ite_pos_of_nonneg (x : ℚ) (h : 0 ≤ x) : (if 0 < x then x else 0) = x := by
  rcases lt_or_eq_of_le h with h1 | h1
  · rw [if_pos h1]
  · rw [← h1]
    simp

/-- C9 (amended): for the current (second) revision of the duty adapter,
every non-error result whose duty/tax/fee totals are non-negative satisfies
`totalLandedCost = productValue + sum(breakdown[1:].amount)` exactly (hence
within 1e-6); the first revision instead reports the provider-supplied
`landedCostTotal` (defaulting to the bare product value), which need not
equal the breakdown sum. -/
theorem c9_amended (o : DutyOutcomeV2) (hs cur : String) (pv : ℚ) (lat : Nat)
    (hnn : dutyTotalsNonneg o)
    (herr : (calculateDutyWithZonos o hs pv cur lat).error = none) :
    (calculateDutyWithZonos o hs pv cur lat).totalLandedCost =
      pv + (((calculateDutyWithZonos o hs pv cur lat).breakdown.drop 1).map
        (fun b => b.amount)).sum := by
  cases o with
  | missingKey => simp [calculateDutyWithZonos, errorDutyV2] at herr
  | failure msg => simp [calculateDutyWithZonos, errorDutyV2] at herr
  | parsedOk errs results =>
    by_cases hdom : isDomesticErrs errs = true
    · simp only [calculateDutyWithZonos, hdom, if_true]
      simp
    · simp only [calculateDutyWithZonos, hdom, Bool.false_eq_true, if_false] at herr ⊢
      cases results with
      | none => simp [errorDutyV2] at herr
      | some l =>
        cases l with
        | nil => simp [errorDutyV2] at herr
        | cons lc rest =>
          simp only [dutyTotalsNonneg] at hnn
          obtain ⟨hd, ht, hf⟩ := hnn
          simp only [List.drop_succ_cons, List.drop_zero, List.map_append,
            List.sum_append, mapSum_if_singleton]
          rw [ite_pos_of_nonneg _ hd, ite_pos_of_nonneg _ ht, ite_pos_of_nonneg _ hf]
          ring

/-- C9 witness: the amended invariant at a concrete successful response
(product value 100, duties 8, taxes 20), via the amended theorem. -/
theorem c9_amended_witness :
    dutyTotalsNonneg v2SampleOutcome ∧
    (calculateDutyWithZonos v2SampleOutcome "640399" 100 "EUR" 6).error = none ∧
    (calculateDutyWithZonos v2SampleOutcome "640399" 100 "EUR" 6).totalLandedCost =
      100 + (((calculateDutyWithZonos v2SampleOutcome "640399" 100 "EUR" 6).breakdown.drop 1).map
        (fun b => b.amount)).sum := by
  have hnn : dutyTotalsNonneg v2SampleOutcome := by
    simp [dutyTotalsNonneg, v2SampleOutcome, sumAmounts]
    norm_num
  have herr : (calculateDutyWithZonos v2SampleOutcome "640399" 100 "EUR" 6).error = none := by
    simp [calculateDutyWithZonos, v2SampleOutcome, isDomesticErrs]
  exact ⟨hnn, herr, c9_amended v2SampleOutcome "640399" "EUR" 100 6 hnn herr⟩

/-! ## C5 — matrix cells for absent providers -/

theorem jsStrictEqOpt_none_left (y : Option String) :
    jsStrictEqOpt none y = y.isNone := by
  cases y <;> rfl

theorem jsStrictEqOpt_none_right (x : Option String) :
    jsStrictEqOpt x none = x.isNone := by
  cases x <;> rfl

/-- C5 counterexample: with Anthropic present and Zonos absent from the
comparison, the matrix cells for that pair are `false` — a defined boolean,
not an undefined cell — at both the exact and the 6-digit level (the
source compares `undefined` to a string with `===`). -/
theorem c5_counterexample :
    (analyzeResults ⟨some presentResult, none, none⟩ none).hsCodeMatch.anthropicVsZonos
        = false ∧
    (analyzeResults ⟨some presentResult, none, none⟩ none).hsCodeMatch.hs6Match.anthropicVsZonos
        = false := by
  constructor <;> rfl

/-- C5 (amended): a pair with an absent provider never yields an undefined
cell; the cell is the boolean `true` exactly when both providers of the
pair are absent (`undefined === undefined`), and `false` when exactly one
is absent. -/
theorem c5_amended (cs : Classifications) (d : Option DutyCalculations) :
    (cs.anthropic = none ∨ cs.zonos = none →
      (analyzeResults cs d).hsCodeMatch.anthropicVsZonos =
          (cs.anthropic.isNone && cs.zonos.isNone) ∧
      (analyzeResults cs d).hsCodeMatch.hs6Match.anthropicVsZonos =
          (cs.anthropic.isNone && cs.zonos.isNone)) ∧
    (cs.openai = none ∨ cs.zonos = none →
      (analyzeResults cs d).hsCodeMatch.openaiVsZonos =
          (cs.openai.isNone && cs.zonos.isNone) ∧
      (analyzeResults cs d).hsCodeMatch.hs6Match.openaiVsZonos =
          (cs.openai.isNone && cs.zonos.isNone)) ∧
    (cs.anthropic = none ∨ cs.openai = none →
      (analyzeResults cs d).hsCodeMatch.anthropicVsOpenai =
          (cs.anthropic.isNone && cs.openai.isNone) ∧
      (analyzeResults cs d).hsCodeMatch.hs6Match.anthropicVsOpenai =
          (cs.anthropic.isNone && cs.openai.isNone)) := by
  refine ⟨fun h => ?_, fun h => ?_, fun h => ?_⟩ <;>
    rcases h with h | h <;>
      simp [analyzeResults, h, jsStrictEqOpt_none_left, jsStrictEqOpt_none_right]

/-- C5 witness: both providers of the pair absent gives the defined cell
`true`, via the amended theorem. -/
theorem c5_amended_witness :
    (analyzeResults ⟨none, none, none⟩ none).hsCodeMatch.anthropicVsZonos =
        ((none : Option ClassificationResult).isNone &&
          (none : Option ClassificationResult).isNone) ∧
    (analyzeResults ⟨none, none, none⟩ none).hsCodeMatch.hs6Match.anthropicVsZonos =
        ((none : Option ClassificationResult).isNone &&
          (none : Option ClassificationResult).isNone) :=
  (c5_amended ⟨none, none, none⟩ none).1 (Or.inl rfl)

/-! ## C6 — provider scoring and winner selection -/

theorem jsTruthyStr_eq_isSome (e : Option String) (h : e ≠ some "") :
    jsTruthyStr e = e.isSome := by
  cases e with
  | none => rfl
  | some s =>
    have hs : s ≠ "" := fun hh => h (by rw [hh])
    simp [jsTruthyStr, hs]

theorem calculateProviderScore_eq_spec (r z : Option ClassificationResult)
    (em fm : Bool) (h : ∀ x, r = some x → x.error ≠ some "") :
    calculateProviderScore r z em fm = scoreSpec r em fm := by
  cases r with
  | none => rfl
  | some x =>
    have hx := h x rfl
    simp [calculateProviderScore, scoreSpec, jsTruthyStr_eq_isSome _ hx]

/-- C6: for every comparison whose reasoning-provider results carry no
empty-string error field (every error message the adapters emit is
non-empty), the implemented per-provider score agrees with the specified
`matchBonus + confidence` rule — 3 plus confidence on an exact match with
the structured reference, 2 plus confidence on a family-only match,
confidence alone otherwise, 0 when missing or errored — and the recorded
winner is the strictly-higher-scoring provider, a tie on equal positive
scores, and undefined when no score is positive. -/
theorem c6_score_and_winner (cs : Classifications) (d : Option DutyCalculations)
    (hA : ∀ x, cs.anthropic = some x → x.error ≠ some "")
    (hO : ∀ x, cs.openai = some x → x.error ≠ some "") :
    calculateProviderScore cs.anthropic cs.zonos
        (analyzeResults cs d).hsCodeMatch.anthropicVsZonos
        (analyzeResults cs d).hsCodeMatch.hs6Match.anthropicVsZonos =
      scoreSpec cs.anthropic
        (analyzeResults cs d).hsCodeMatch.anthropicVsZonos
        (analyzeResults cs d).hsCodeMatch.hs6Match.anthropicVsZonos ∧
    calculateProviderScore cs.openai cs.zonos
        (analyzeResults cs d).hsCodeMatch.openaiVsZonos
        (analyzeResults cs d).hsCodeMatch.hs6Match.openaiVsZonos =
      scoreSpec cs.openai
        (analyzeResults cs d).hsCodeMatch.openaiVsZonos
        (analyzeResults cs d).hsCodeMatch.hs6Match.openaiVsZonos ∧
    (analyzeResults cs d).winner =
      winnerSpec
        (scoreSpec cs.anthropic
          (analyzeResults cs d).hsCodeMatch.anthropicVsZonos
          (analyzeResults cs d).hsCodeMatch.hs6Match.anthropicVsZonos)
        (scoreSpec cs.openai
          (analyzeResults cs d).hsCodeMatch.openaiVsZonos
          (analyzeResults cs d).hsCodeMatch.hs6Match.openaiVsZonos) := by
  have e1 := calculateProviderScore_eq_spec cs.anthropic cs.zonos
    (analyzeResults cs d).hsCodeMatch.anthropicVsZonos
    (analyzeResults cs d).hsCodeMatch.hs6Match.anthropicVsZonos hA
  have e2 := calculateProviderScore_eq_spec cs.openai cs.zonos
    (analyzeResults cs d).hsCodeMatch.openaiVsZonos
    (analyzeResults cs d).hsCodeMatch.hs6Match.openaiVsZonos hO
  refine ⟨e1, e2, ?_⟩
  rw [← e1, ← e2]
  rfl

/-- C6 witness: the scoring/winner agreement on a concrete comparison
(Anthropic 0.9 and OpenAI 0.85, both exact matches with Zonos), via the
theorem. -/
theorem c6_score_and_winner_witness :
    (∀ x, csSample.anthropic = some x → x.error ≠ some "") ∧
    (∀ x, csSample.openai = some x → x.error ≠ some "") ∧
    (analyzeResults csSample none).winner =
      winnerSpec
        (scoreSpec csSample.anthropic
          (analyzeResults csSample none).hsCodeMatch.anthropicVsZonos
          (analyzeResults csSample none).hsCodeMatch.hs6Match.anthropicVsZonos)
        (scoreSpec csSample.openai
          (analyzeResults csSample none).hsCodeMatch.openaiVsZonos
          (analyzeResults csSample none).hsCodeMatch.hs6Match.openaiVsZonos) := by
  have hA : ∀ x, csSample.anthropic = some x → x.error ≠ some "" := by
    intro x hx
    simp only [csSample, Option.some.injEq] at hx
    rw [← hx]
    simp [presentResult]
  have hO : ∀ x, csSample.openai = some x → x.error ≠ some "" := by
    intro x hx
    simp only [csSample, Option.some.injEq] at hx
    rw [← hx]
    simp [openaiSample]
  exact ⟨hA, hO, (c6_score_and_winner csSample none hA hO).2.2⟩

/-! ## C10 — agreement cells and notes when every classification failed -/

/-- C10: when all compared providers returned error results (empty
`hsCode`/`hsCode6`, truthy error, zero confidence as the adapters emit),
the match matrix reports exact and family agreement for the pair — and the
generated notes state that all providers returned the same HS code, even
though every classification failed. -/
theorem c10_error_results_agree (ra ro rz : ClassificationResult)
    (haP : ra.hsCode = "") (ha6 : ra.hsCode6 = "")
    (haE : jsTruthyStr ra.error = true) (haC : ra.confidence = 0)
    (hoP : ro.hsCode = "") (ho6 : ro.hsCode6 = "")
    (hoE : jsTruthyStr ro.error = true) (hoC : ro.confidence = 0)
    (hzP : rz.hsCode = "") (hz6 : rz.hsCode6 = "")
    (hzE : jsTruthyStr rz.error = true) :
    (analyzeResults ⟨some ra, some ro, some rz⟩ none).hsCodeMatch.anthropicVsZonos = true ∧
    (analyzeResults ⟨some ra, some ro, some rz⟩ none).hsCodeMatch.hs6Match.anthropicVsZonos = true ∧
    (analyzeResults ⟨some ra, some ro, some rz⟩ none).notes =
      "All providers returned the same HS code." := by
  refine ⟨?_, ?_, ?_⟩
  · simp [analyzeResults, jsStrictEqOpt, haP, hzP]
  · simp [analyzeResults, jsStrictEqOpt, ha6, hz6]
  · simp [analyzeResults, generateAnalysisNotes, jsStrictEqOpt,
      haP, hoP, hzP, ha6, ho6, hz6, haC, hoC]
    norm_num
    rfl

/-- C10 witness: the adapters' own failure results (Anthropic/OpenAI
transport failures and a missing Zonos key), via the theorem. -/
theorem c10_error_results_agree_witness :
    jsTruthyStr (classifyWithAnthropic (.failure "timeout") 1).error = true ∧
    jsTruthyStr (classifyWithOpenAI (.failure "timeout") 1).error = true ∧
    jsTruthyStr (classifyWithZonos .missingKey 1).error = true ∧
    (analyzeResults ⟨some (classifyWithAnthropic (.failure "timeout") 1),
        some (classifyWithOpenAI (.failure "timeout") 1),
        some (classifyWithZonos .missingKey 1)⟩ none).notes =
      "All providers returned the same HS code." :=
  ⟨by decide, by decide, by decide,
    (c10_error_results_agree
      (classifyWithAnthropic (.failure "timeout") 1)
      (classifyWithOpenAI (.failure "timeout") 1)
      (classifyWithZonos .missingKey 1)
      rfl rfl (by decide) rfl rfl rfl (by decide) rfl rfl rfl (by decide)).2.2⟩

/-! ## C1 — input substitution for the structured provider -/

/-- C1: when the structured provider is requested and the original input
carries no image URL, product name or description, the Zonos classification
stored in the aggregate is the structured adapter applied to a derived
input carrying the Anthropic-identified product label and description —
and the aggregate's `input` is the unchanged original. -/
theorem c1_input_substitution (O : Oracles) (req : ComparisonRequest)
    (id ts : String) (label desc : String)
    (hAmem : (req.providers.getD defaultProviders).contains Provider.anthropic = true)
    (hZmem : (req.providers.getD defaultProviders).contains Provider.zonos = true)
    (hUrl : jsTruthyStr req.imageUrl = false)
    (hName : jsTruthyStr req.productName = false)
    (hDesc : jsTruthyStr req.productDescription = false)
    (hLabel : (O.classifyAnthropic (mkInput req)).rawResponse.bind
        (fun w => w.productIdentified) = some label)
    (hLabelNe : label ≠ "")
    (hDescEq : (O.classifyAnthropic (mkInput req)).description = desc)
    (hDescNe : desc ≠ "") :
    (runComparison O req id ts).classifications.zonos =
      some (O.classifyZonos
        { mkInput req with productName := some label, productDescription := some desc }) ∧
    (runComparison O req id ts).input = mkInput req := by
  constructor
  · rw [runComparison_classifications]
    have hcond : (jsTruthyStr (mkInput req).imageUrl ||
        jsTruthyStr (mkInput req).productName ||
        jsTruthyStr (mkInput req).productDescription) = false := by
      simp [mkInput, hUrl, hName, hDesc]
    have hap : ((some (O.classifyAnthropic (mkInput req))).bind fun r =>
        r.rawResponse.bind fun w => w.productIdentified) = some label := by
      simpa using hLabel
    have had : Option.map (fun r => r.description)
        (some (O.classifyAnthropic (mkInput req))) = some desc := by
      simp [hDescEq]
    have hder : deriveZonosInput (mkInput req) (some (O.classifyAnthropic (mkInput req))) =
        { mkInput req with productName := some label, productDescription := some desc } := by
      simp only [deriveZonosInput, hcond, Bool.false_eq_true, if_false, hap, had]
      rw [if_pos hLabelNe, if_pos hDescNe]
    simp only [classifyPhase, hAmem, hZmem, if_true, hder]
  · exact runComparison_input O req id ts

/-- C1 witness: with only inline bytes in the request, the aggregate's
Zonos entry is the structured adapter applied to the substituted input
carrying `leather handbag`, and the aggregate's input is unchanged — via
the theorem. -/
theorem c1_input_substitution_witness :
    (runComparison testOracles reqBytesOnly "id-1" "ts-1").classifications.zonos =
      some (testOracles.classifyZonos
        { mkInput reqBytesOnly with
            productName := some "leather handbag",
            productDescription := some "Leather handbag" }) ∧
    (runComparison testOracles reqBytesOnly "id-1" "ts-1").input = mkInput reqBytesOnly :=
  c1_input_substitution testOracles reqBytesOnly "id-1" "ts-1"
    "leather handbag" "Leather handbag"
    (by decide) (by decide) rfl rfl rfl rfl (by decide) rfl (by decide)

/-! ## Value-resolution lemmas (steps 3 of the orchestrator) -/

theorem resolveValue_of_truthy_req (rv : Option ℚ) (cA : Option ClassificationResult)
    (v : ℚ) (h : rv = some v) (hv : v ≠ 0) :
    resolveValue rv cA = (some v, false) := by
  subst h
  simp [resolveValue, jsTruthyNum, hv]

theorem resolveValue_field_est (cA : Option ClassificationResult)
    (r : ClassificationResult) (e : ℚ) (hc : cA = some r)
    (hf : r.estimatedValueEUR = some e) (he : e ≠ 0) :
    resolveValue none cA = (some e, true) := by
  subst hc
  simp [resolveValue, jsTruthyNum, hf, he]

theorem resolveValue_raw_num (r : ClassificationResult) (raw : RawResponse)
    (w : ℚ) (hf : r.estimatedValueEUR = none) (hr : r.rawResponse = some raw)
    (hw : raw.estimatedValueEUR = some (.num w)) (hpos : 0 < w) :
    resolveValue none (some r) = (some w, true) := by
  simp [resolveValue, jsTruthyNum, hf, hr, hw, hpos]

theorem resolveValue_raw_str (r : ClassificationResult) (raw : RawResponse)
    (s : String) (p : ℚ) (hf : r.estimatedValueEUR = none)
    (hr : r.rawResponse = some raw) (hs : raw.estimatedValueEUR = some (.str s))
    (hp : jsParseFloat s = some p) (hpos : 0 < p) :
    resolveValue none (some r) = (some p, true) := by
  simp [resolveValue, jsTruthyNum, hf, hr, hs, hp, hpos]

/-! ## C2 — synthetic Zonos duty entry from the Anthropic code -/

/-- C2: in every comparison with a positive resolved value, if the Zonos
classification is absent, errored or returned no code while the Anthropic
classification succeeded with a non-empty code, the stored aggregate
carries a duty entry in the Zonos slot computed from the Anthropic code. -/
theorem c2_structured_duty_fallback (O : Oracles) (req : ComparisonRequest)
    (id ts : String) (v : ℚ) (ra : ClassificationResult)
    (hpv : (runComparison O req id ts).productValue = some v)
    (hvpos : 0 < v)
    (hA : (runComparison O req id ts).classifications.anthropic = some ra)
    (hcode : ra.hsCode ≠ "")
    (herr : jsTruthyStr ra.error = false)
    (hz : (runComparison O req id ts).classifications.zonos = none ∨
      ∃ rz, (runComparison O req id ts).classifications.zonos = some rz ∧
        (jsTruthyStr rz.error = true ∨ rz.hsCode = "")) :
    ∃ dc : DutyCalculations,
      (runComparison O req id ts).dutyCalculations = some dc ∧
      dc.zonos = some (dutyFor O req (jsOrStr req.shipToCountry "US") v
        Provider.zonos ra.hsCode) := by
  rw [runComparison_classifications] at hA hz
  rw [runComparison_productValue] at hpv
  have hduty : (runComparison O req id ts).dutyCalculations =
      some (dutyPhase O req (jsOrStr req.shipToCountry "US")
        (classifyPhase O (req.providers.getD defaultProviders) (mkInput req)) v) := by
    rw [runComparison_dutyCalculations, hpv]
    simp [hvpos]
  refine ⟨_, hduty, ?_⟩
  have hz0 : eligibleDuty O req (jsOrStr req.shipToCountry "US") v Provider.zonos
      (classifyPhase O (req.providers.getD defaultProviders) (mkInput req)).zonos = none := by
    rcases hz with h | ⟨rz, hrz, hbad⟩
    · rw [h]
      rfl
    · rw [hrz]
      simp only [eligibleDuty]
      rw [if_neg]
      rintro ⟨h1, h2⟩
      rcases hbad with hb | hb
      · exact h2 hb
      · exact h1 hb
  have hnf : zonosNeedsFallback
      (classifyPhase O (req.providers.getD defaultProviders) (mkInput req)).zonos = true := by
    rcases hz with h | ⟨rz, hrz, hbad⟩
    · rw [h]
      rfl
    · rw [hrz]
      simp only [zonosNeedsFallback]
      rcases hbad with hb | hb
      · simp [hb]
      · simp [hb]
  simp only [dutyPhase, hz0, hA]
  rw [if_pos ⟨hnf, hcode, fun hcon => by rw [herr] at hcon; exact Bool.false_ne_true hcon⟩]

/-- C2 witness: with the Zonos classification failing by transport error
and Anthropic succeeding with code 420221, the aggregate carries a Zonos
duty entry computed from 420221 — via the theorem. -/
theorem c2_structured_duty_fallback_witness :
    ∃ dc : DutyCalculations,
      (runComparison testOracles reqWithValue "id-2" "ts-2").dutyCalculations = some dc ∧
      dc.zonos = some (dutyFor testOracles reqWithValue
        (jsOrStr reqWithValue.shipToCountry "US") 100 Provider.zonos
        (classifyWithAnthropic (.parsedOk estParsed) 10).hsCode) := by
  have hpv : (runComparison testOracles reqWithValue "id-2" "ts-2").productValue = some 100 := by
    rw [runComparison_productValue]
    rw [resolveValue_of_truthy_req reqWithValue.productValue _ 100 rfl (by norm_num)]
  refine c2_structured_duty_fallback testOracles reqWithValue "id-2" "ts-2" 100
    (classifyWithAnthropic (.parsedOk estParsed) 10) hpv (by norm_num) rfl
    (by decide) rfl ?_
  exact Or.inr ⟨classifyWithZonos (.failure "Zonos API error: 500 Internal Server Error") 2,
    rfl, Or.inl (by decide)⟩

/-! ## C3 — resolution of the product value for the duty phase -/

theorem resolveValue_no_positive (cA : Option ClassificationResult)
    (hnp : noPositiveEstimate cA) (v : ℚ)
    (h : (resolveValue none cA).1 = some v) : v ≤ 0 := by
  cases cA with
  | none => simp [resolveValue, jsTruthyNum] at h
  | some r =>
    obtain ⟨h1, h2⟩ := hnp r rfl
    have rawCase : (r.estimatedValueEUR = none ∨ r.estimatedValueEUR = some 0) → v ≤ 0 := by
      intro hfe
      cases hr : r.rawResponse with
      | none =>
        rcases hfe with hfe | hfe <;> simp [resolveValue, jsTruthyNum, hfe, hr] at h
      | some raw =>
        obtain ⟨p1, p2⟩ := h2 raw hr
        cases hv : raw.estimatedValueEUR with
        | none =>
          rcases hfe with hfe | hfe <;> simp [resolveValue, jsTruthyNum, hfe, hr, hv] at h
        | some rv =>
          cases rv with
          | num w =>
            have hw := p1 w hv
            rcases hfe with hfe | hfe <;>
              simp [resolveValue, jsTruthyNum, hfe, hr, hv, not_lt.mpr hw] at h
          | str s =>
            cases hp : jsParseFloat s with
            | none =>
              rcases hfe with hfe | hfe <;>
                simp [resolveValue, jsTruthyNum, hfe, hr, hv, hp] at h
            | some p =>
              have hple := p2 s p hv hp
              rcases hfe with hfe | hfe <;>
                simp [resolveValue, jsTruthyNum, hfe, hr, hv, hp, not_lt.mpr hple] at h
    cases hfe : r.estimatedValueEUR with
    | some e =>
      by_cases he0 : e = 0
      · exact rawCase (Or.inr (he0 ▸ hfe))
      · rw [resolveValue_field_est (some r) r e rfl hfe he0] at h
        obtain rfl : e = v := by simpa using h
        exact h1 e hfe
    | none => exact rawCase (Or.inl hfe)

/-- C3: the resolved value used for the duty phase is the explicit request
value when positive; otherwise the Anthropic AI estimate when positive —
accepted as the parsed numeric field, a raw numeric, or a raw
numeric-string; and when no positive value exists, no duty entries are
produced while the classification entries are untouched.  The request
hypothesis mirrors the inbound zod validation (`productValue` positive
when present). -/
theorem c3_value_resolution (O : Oracles) (req : ComparisonRequest) (id ts : String)
    (hval : ∀ v, req.productValue = some v → 0 < v) :
    (∀ v, req.productValue = some v →
      (runComparison O req id ts).productValue = some v ∧
      (runComparison O req id ts).isEstimatedValue = false ∧
      (runComparison O req id ts).dutyCalculations =
        some (dutyPhase O req (jsOrStr req.shipToCountry "US")
          (classifyPhase O (req.providers.getD defaultProviders) (mkInput req)) v)) ∧
    (∀ r e, req.productValue = none →
      (runComparison O req id ts).classifications.anthropic = some r →
      r.estimatedValueEUR = some e → 0 < e →
      (runComparison O req id ts).productValue = some e ∧
      (runComparison O req id ts).isEstimatedValue = true ∧
      (runComparison O req id ts).dutyCalculations =
        some (dutyPhase O req (jsOrStr req.shipToCountry "US")
          (classifyPhase O (req.providers.getD defaultProviders) (mkInput req)) e)) ∧
    (∀ r raw w, req.productValue = none →
      (runComparison O req id ts).classifications.anthropic = some r →
      r.estimatedValueEUR = none → r.rawResponse = some raw →
      raw.estimatedValueEUR = some (.num w) → 0 < w →
      (runComparison O req id ts).productValue = some w ∧
      (runComparison O req id ts).isEstimatedValue = true ∧
      (runComparison O req id ts).dutyCalculations =
        some (dutyPhase O req (jsOrStr req.shipToCountry "US")
          (classifyPhase O (req.providers.getD defaultProviders) (mkInput req)) w)) ∧
    (∀ r raw s p, req.productValue = none →
      (runComparison O req id ts).classifications.anthropic = some r →
      r.estimatedValueEUR = none → r.rawResponse = some raw →
      raw.estimatedValueEUR = some (.str s) → jsParseFloat s = some p → 0 < p →
      (runComparison O req id ts).productValue = some p ∧
      (runComparison O req id ts).isEstimatedValue = true ∧
      (runComparison O req id ts).dutyCalculations =
        some (dutyPhase O req (jsOrStr req.shipToCountry "US")
          (classifyPhase O (req.providers.getD defaultProviders) (mkInput req)) p)) ∧
    (req.productValue = none →
      noPositiveEstimate (runComparison O req id ts).classifications.anthropic →
      (runComparison O req id ts).dutyCalculations = none ∧
      (runComparison O req id ts).classifications =
        classifyPhase O (req.providers.getD defaultProviders) (mkInput req)) := by
  refine ⟨?_, ?_, ?_, ?_, ?_⟩
  · intro v hv
    have hres := resolveValue_of_truthy_req req.productValue
      (classifyPhase O (req.providers.getD defaultProviders) (mkInput req)).anthropic
      v hv (ne_of_gt (hval v hv))
    refine ⟨?_, ?_, ?_⟩
    · rw [runComparison_productValue, hres]
    · rw [runComparison_isEstimatedValue, hres]
    · rw [runComparison_dutyCalculations, hres]
      simp [hval v hv]
  · intro r e hnone hA hf hpos
    rw [runComparison_classifications] at hA
    have hres := resolveValue_field_est
      (classifyPhase O (req.providers.getD defaultProviders) (mkInput req)).anthropic
      r e hA hf (ne_of_gt hpos)
    refine ⟨?_, ?_, ?_⟩
    · rw [runComparison_productValue, hnone, hres]
    · rw [runComparison_isEstimatedValue, hnone, hres]
    · rw [runComparison_dutyCalculations, hnone, hres]
      simp [hpos]
  · intro r raw w hnone hA hf hr hw hpos
    rw [runComparison_classifications] at hA
    have hres := resolveValue_raw_num r raw w hf hr hw hpos
    refine ⟨?_, ?_, ?_⟩
    · rw [runComparison_productValue, hnone, hA, hres]
    · rw [runComparison_isEstimatedValue, hnone, hA, hres]
    · rw [runComparison_dutyCalculations, hnone, hA, hres]
      simp [hpos]
  · intro r raw s p hnone hA hf hr hs hp hpos
    rw [runComparison_classifications] at hA
    have hres := resolveValue_raw_str r raw s p hf hr hs hp hpos
    refine ⟨?_, ?_, ?_⟩
    · rw [runComparison_productValue, hnone, hA, hres]
    · rw [runComparison_isEstimatedValue, hnone, hA, hres]
    · rw [runComparison_dutyCalculations, hnone, hA, hres]
      simp [hpos]
  · intro hnone hnp
    rw [runComparison_classifications] at hnp
    refine ⟨?_, runComparison_classifications O req id ts⟩
    rw [runComparison_dutyCalculations, hnone]
    cases hres : (resolveValue none
        (classifyPhase O (req.providers.getD defaultProviders) (mkInput req)).anthropic).1 with
    | none => simp [hres]
    | some v =>
      have hv := resolveValue_no_positive _ hnp v hres
      simp [hres, not_lt.mpr hv]

/-- C3 witness: with no explicit value and a 150 EUR Anthropic field
estimate, the aggregate records the estimated value 150 — via the
theorem. -/
theorem c3_value_resolution_witness :
    (runComparison testOracles reqBytesOnly "id-3" "ts-3").productValue = some 150 ∧
    (runComparison testOracles reqBytesOnly "id-3" "ts-3").isEstimatedValue = true := by
  have h := (c3_value_resolution testOracles reqBytesOnly "id-3" "ts-3"
      (by simp [reqBytesOnly])).2.1
    (classifyWithAnthropic (.parsedOk estParsed) 10) 150 rfl rfl rfl (by norm_num)
  exact ⟨h.1, h.2.1⟩
